import Mathlib

/-!
Verification of the farm-navigators simulation core against its specification.

The definitions below are a shallow embedding of the JavaScript sources:
* `rainLabel` embeds the precipitation classifier lambda that builds the
  `rainPattern` array in FarmGame.jsx.
* `rainfallToLevel` embeds `rainfallToLevel` in src/game/farm-sim.js.
* `FarmState`, `fullStep`, `handleAction`, `nextDay` embed the `FarmScene`
  class in FarmGame.jsx (`init`, `handleAction`, `nextDay`).  The three
  random draws of a step (`Phaser.Math.Between(5,15)` in Scout,
  `Phaser.Math.Between(0,5)` for pest growth, `Phaser.Math.FloatBetween(-0.05,0.05)`
  for price drift) are passed in explicitly as a `Rand` record.
* `soilStep`, `soilSeries`, `kc_map`, `round2` embed the soil-moisture
  balance loop of `MapPage.LocationMarker`, with the per-day precipitation
  and ETo values taken as inputs (the loop consumes them pointwise).
* `hargreavesETo`, `etoOfDay`, `precipOfDay` embed the ETo computation and
  the `?? null` / `?? 0` parsing of the upstream weather response.

Machine floats are modelled as `ℚ` (the engine uses only field operations,
comparisons, min and max), except the Hargreaves formula which needs a real
square root and is modelled over `ℝ`.
-/

namespace FarmNav

/-- The rainfall intensity labels "none" / "low" / "medium" / "high". -/
inductive RainLevel where
  | none
  | low
  | medium
  | high
deriving DecidableEq, Repr

/-- Position of a label in the intensity order none < low < medium < high. -/
def RainLevel.rank : RainLevel → ℕ
  | .none => 0
  | .low => 1
  | .medium => 2
  | .high => 3

/-- The classifier lambda in FarmGame.jsx building `rainPattern`:
`mm === 0 → "none"; mm < 3 → "low"; mm < 10 → "medium"; else "high"`. -/
def rainLabel (mm : ℚ) : RainLevel :=
  if mm = 0 then .none
  else if mm < 3 then .low
  else if mm < 10 then .medium
  else .high

/-- `rainfallToLevel` in src/game/farm-sim.js:
`mm < 2 → "low"; mm < 10 → "medium"; else "high"`. -/
def rainfallToLevel (mm : ℚ) : RainLevel :=
  if mm < 2 then .low
  else if mm < 10 then .medium
  else .high

/-- The four action buttons of the farm scene. -/
inductive Action where
  | Irrigate
  | Fertilize
  | Scout
  | Wait
deriving DecidableEq, Repr

/-- `Phaser.Math.Clamp(value, min, max) = Math.min(Math.max(value, min), max)`. -/
def clamp (value lo hi : ℚ) : ℚ := min (max value lo) hi

/-- The random draws consumed by one `handleAction` step:
`scoutRed = Phaser.Math.Between(5, 15)` (used only by Scout),
`pestRand = Phaser.Math.Between(0, 5)`,
`priceDrift = Phaser.Math.FloatBetween(-0.05, 0.05)`. -/
structure Rand where
  scoutRed : ℕ
  pestRand : ℕ
  priceDrift : ℚ
deriving DecidableEq, Repr

/-- The mutable fields of `FarmScene` (FarmGame.jsx).  `pests` is the
pest-pressure field, named as in the source. -/
structure FarmState where
  day : ℕ
  money : ℚ
  sustainability : ℚ
  pests : ℚ
  nitrogen : ℚ
  cropHealth : ℚ
  marketPrice : ℚ
  soilMoisture : ℚ
  rainPattern : List RainLevel
  actionsTakenToday : List Action
deriving DecidableEq, Repr

/-- `FarmScene.init`: day 1, money 20, sustainability 80, pests 15,
nitrogen 45, cropHealth 70, marketPrice 1.0, soilMoisture from the weather
data (`data.soil_moisture?.[0] || 55`), empty action list. -/
def initState (rain : List RainLevel) (sm0 : ℚ) : FarmState :=
  { day := 1
    money := 20
    sustainability := 80
    pests := 15
    nitrogen := 45
    cropHealth := 70
    marketPrice := 1
    soilMoisture := sm0
    rainPattern := rain
    actionsTakenToday := [] }

/-- The rain-driven soil-moisture delta at the top of `handleAction`:
none −7, low −5, medium +6, high +12. -/
def rainDelta : RainLevel → ℚ
  | .none => -7
  | .low => -5
  | .medium => 6
  | .high => 12

/-- The body of `FarmScene.handleAction` after its day guard, in source
order: rain delta on soil moisture, the action `switch`, appending to
`actionsTakenToday`, passive pest growth (using the pre-step `cropHealth`),
clamping soil moisture and nitrogen, recomputing `cropHealth`, crediting
revenue from the new `cropHealth` at the current `marketPrice`, and finally
the clamped market-price drift.  Each `let` mirrors one mutation of the
source; the action `switch` touches disjoint fields, split here per field. -/
def fullStep (action : Action) (r : Rand) (s : FarmState) : FarmState :=
  let rain := s.rainPattern.getD (s.day - 1) RainLevel.medium
  let sm1 := s.soilMoisture + rainDelta rain
  let sm2 :=
    match action with
    | .Irrigate => sm1 + 10
    | _ => sm1
  let nitrogen1 :=
    match action with
    | .Fertilize => s.nitrogen + 12
    | _ => s.nitrogen
  let money1 :=
    match action with
    | .Irrigate => s.money - 3
    | .Fertilize => s.money - 2
    | .Scout => s.money - 1
    | .Wait => s.money
  let sustainability1 :=
    match action with
    | .Irrigate =>
        if rain ≠ RainLevel.low ∧ rain ≠ RainLevel.none then s.sustainability - 2
        else s.sustainability
    | .Fertilize =>
        if rain = RainLevel.high then s.sustainability - 3 else s.sustainability
    | _ => s.sustainability
  let pests1 :=
    match action with
    | .Scout => clamp (s.pests - (r.scoutRed : ℚ)) 0 100
    | _ => s.pests
  let actions1 := s.actionsTakenToday ++ [action]
  let pestGrowth := (r.pestRand : ℚ) + (100 - s.cropHealth) / 20
  let pests2 := clamp (pests1 + pestGrowth) 0 100
  let sm3 := clamp sm2 0 100
  let nitrogen2 := clamp nitrogen1 0 100
  let health := clamp ((sm3 * 0.4 + nitrogen2 * 0.4 + (100 - pests2) * 0.2) / 1.5) 0 100
  let money2 :=
    if health > 70 then money1 + 4 * s.marketPrice
    else if health > 40 then money1 + 2 * s.marketPrice
    else money1
  let price1 := clamp (s.marketPrice + r.priceDrift) 0.8 1.5
  { s with
      soilMoisture := sm3
      nitrogen := nitrogen2
      money := money2
      sustainability := sustainability1
      pests := pests2
      cropHealth := health
      marketPrice := price1
      actionsTakenToday := actions1 }

/-- `FarmScene.handleAction`: `if (this.day > this.rainPattern.length) return;`
then the full step. -/
def handleAction (action : Action) (r : Rand) (s : FarmState) : FarmState :=
  if s.day > s.rainPattern.length then s else fullStep action r s

/-- The terminal summary shown by the end-of-season modal. -/
structure Summary where
  finalProfit : ℚ
  finalSustainability : ℚ
  finalCropHealth : ℚ
deriving DecidableEq, Repr

/-- `FarmScene.nextDay`: no-op past the end of the series; otherwise reset
`actionsTakenToday`, increment `day`, and emit the terminal summary
(`money`, `sustainability`, `cropHealth`) when the new day passes the end. -/
def nextDay (s : FarmState) : FarmState × Option Summary :=
  if s.day > s.rainPattern.length then (s, Option.none)
  else
    let s1 : FarmState := { s with actionsTakenToday := [], day := s.day + 1 }
    if s1.day > s1.rainPattern.length then
      (s1, Option.some ⟨s1.money, s1.sustainability, s1.cropHealth⟩)
    else (s1, Option.none)

/-- The state component of `nextDay`. -/
def stepDay (s : FarmState) : FarmState := (nextDay s).1

/-! ### Weather preprocessor (MapPage.LocationMarker) -/

/-- `fc_mm = 150`, the configured field capacity in millimeters. -/
def fc_mm : ℚ := 150

/-- `kc_map = { maize: 1.15, wheat: 0.8, grass: 1.0, default: 1.0 }` with the
lookup `kc_map[crop] || kc_map.default`. -/
def kc_map (crop : String) : ℚ :=
  if crop = "maize" then 1.15
  else if crop = "wheat" then 0.8
  else if crop = "grass" then 1
  else 1

/-- `+x.toFixed(2)`: rounding to two decimals for display stability. -/
def round2 (x : ℚ) : ℚ := ((round (100 * x) : ℤ) : ℚ) / 100

/-- One day of the available-water balance (lines of the soil-moisture loop):
add precipitation, subtract `min(aw, eto * kc)`, then the two clamping `if`s
against `fc_mm` and 0. -/
def soilStep (kc aw pr eto : ℚ) : ℚ :=
  let aw1 := aw + pr
  let etc := eto * kc
  let actual_et := min aw1 etc
  let aw2 := aw1 - actual_et
  let aw3 := if aw2 > fc_mm then fc_mm else aw2
  if aw3 < 0 then 0 else aw3

/-- The emitted `soil_series`: running the balance over the per-day
(precipitation, ETo) pairs, pushing `round2` of the balance each day. -/
def soilSeries (kc : ℚ) (aw : ℚ) : List (ℚ × ℚ) → List ℚ
  | [] => []
  | (pr, eto) :: rest =>
      let aw1 := soilStep kc aw pr eto
      round2 aw1 :: soilSeries kc aw1 rest

/-- `hargreavesETo(tmin, tmax, Ra)` in MapPage:
`0.0023 * (tmean + 17.8) * sqrt(max(0, tmax - tmin)) * Ra`. -/
noncomputable def hargreavesETo (tmin tmax Ra : ℝ) : ℝ :=
  0.0023 * ((tmin + tmax) / 2 + 17.8) * Real.sqrt (max 0 (tmax - tmin)) * Ra

/-- The per-day ETo of the parsing loop: the parsed temperatures are
`tmaxObj[key] ?? null` and `tminObj[key] ?? null` (absence becomes `none`);
`eto = (tmx !== null && tmn !== null) ? hargreavesETo(tmn, tmx, Ra) : 0`. -/
noncomputable def etoOfDay (tmn tmx : Option ℝ) (Ra : ℝ) : ℝ :=
  match tmn, tmx with
  | Option.some a, Option.some b => hargreavesETo a b Ra
  | _, _ => 0

/-- The per-day precipitation of the parsing loop: `precObj[key] ?? 0`. -/
def precipOfDay (v : Option ℚ) : ℚ := v.getD 0

/-! ### Helper lemmas about `clamp` -/

theorem clamp_eq_self (v lo hi : ℚ) (h1 : lo ≤ v) (h2 : v ≤ hi) :
    clamp v lo hi = v := by
  unfold clamp
  rw [max_eq_left h1, min_eq_left h2]

theorem le_clamp (v lo hi : ℚ) (h : lo ≤ hi) : lo ≤ clamp v lo hi := by
  unfold clamp
  exact le_min (le_max_right v lo) h

theorem clamp_le (v lo hi : ℚ) : clamp v lo hi ≤ hi := min_le_right _ _

/-! ### Claims about the rainfall classifiers -/

/-- C5. The FarmGame classifier returns `none` exactly at 0, `low` on (0,3),
`medium` on [3,10), `high` on [10,∞); the farm-sim variant is a three-level
none-free scheme: `low` below 2, `medium` on [2,10), `high` on [10,∞). -/
theorem c5_rain_thresholds (p : ℚ) :
    (rainLabel p = RainLevel.none ↔ p = 0) ∧
    (0 < p → p < 3 → rainLabel p = RainLevel.low) ∧
    (3 ≤ p → p < 10 → rainLabel p = RainLevel.medium) ∧
    (10 ≤ p → rainLabel p = RainLevel.high) ∧
    ((∀ q : ℚ, rainfallToLevel q ≠ RainLevel.none)) ∧
    (p < 2 → rainfallToLevel p = RainLevel.low) ∧
    (2 ≤ p → p < 10 → rainfallToLevel p = RainLevel.medium) ∧
    (10 ≤ p → rainfallToLevel p = RainLevel.high) := by
  unfold rainLabel rainfallToLevel
  refine ⟨?_, ?_, ?_, ?_, ?_, ?_, ?_, ?_⟩
  · split_ifs with h1 h2 h3 <;> simp_all
  · intro h1 h2
    split_ifs <;> first | rfl | (exfalso; linarith)
  · intro h1 h2
    split_ifs <;> first | rfl | (exfalso; linarith)
  · intro h1
    split_ifs <;> first | rfl | (exfalso; linarith)
  · intro q
    split_ifs <;> simp
  · intro h1
    split_ifs <;> first | rfl | (exfalso; linarith)
  · intro h1 h2
    split_ifs <;> first | rfl | (exfalso; linarith)
  · intro h1
    split_ifs <;> first | rfl | (exfalso; linarith)

/-- Witness for `c5_rain_thresholds` at concrete precipitation values. -/
theorem c5_rain_thresholds_witness :
    rainLabel 5 = RainLevel.medium ∧ rainfallToLevel 1 = RainLevel.low :=
  ⟨(c5_rain_thresholds 5).2.2.1 (by norm_num) (by norm_num),
   (c5_rain_thresholds 1).2.2.2.2.2.1 (by norm_num)⟩

/-- C6. Both rainfall classifiers are monotone non-decreasing in the
intensity order `none < low < medium < high` (compared via `RainLevel.rank`)
for nonnegative precipitation, and both are pure functions of their input. -/
theorem c6_rain_monotone (p q : ℚ) (hp : 0 ≤ p) (hpq : p ≤ q) :
    (rainLabel p).rank ≤ (rainLabel q).rank ∧
    (rainfallToLevel p).rank ≤ (rainfallToLevel q).rank ∧
    (∀ p1 p2 : ℚ, p1 = p2 →
      rainLabel p1 = rainLabel p2 ∧ rainfallToLevel p1 = rainfallToLevel p2) := by
  refine ⟨?_, ?_, fun p1 p2 h => by rw [h]; exact ⟨rfl, rfl⟩⟩
  · by_cases hp0 : p = 0
    · have h : rainLabel p = RainLevel.none := by simp [rainLabel, hp0]
      rw [h]
      exact Nat.zero_le _
    · have hppos : 0 < p := lt_of_le_of_ne hp (Ne.symm hp0)
      have hq0 : q ≠ 0 := by
        intro h
        rw [h] at hpq
        linarith
      unfold rainLabel
      rw [if_neg hp0, if_neg hq0]
      split_ifs <;> first | decide | linarith
  · unfold rainfallToLevel
    split_ifs <;> first | decide | linarith

/-- Witness for `c6_rain_monotone` at a concrete pair of inputs. -/
theorem c6_rain_monotone_witness :
    (rainLabel 1).rank ≤ (rainLabel 4).rank ∧
    (rainfallToLevel 1).rank ≤ (rainfallToLevel 4).rank ∧
    (∀ p1 p2 : ℚ, p1 = p2 →
      rainLabel p1 = rainLabel p2 ∧ rainfallToLevel p1 = rainfallToLevel p2) :=
  c6_rain_monotone 1 4 (by norm_num) (by norm_num)

/-! ### Concrete states used by witnesses and counterexamples -/

/-- A draw with `scoutRed = 5`, `pestRand = 0`, `priceDrift = 0` (all within
the bounds of the corresponding Phaser random calls). -/
def r0 : Rand := ⟨5, 0, 0⟩

/-- A one-day season with medium rain, started from the default moisture 55. -/
def oneDayMedium : FarmState := initState [RainLevel.medium] 55

/-- A two-day season with low rain, started from the default moisture 55. -/
def twoDayLow : FarmState := initState [RainLevel.low, RainLevel.low] 55

/-! ### Claims about the daily simulation engine -/

/-- C1. After any `handleAction` on an in-progress day, `cropHealth` equals
the clamped weighted formula recomputed from the updated `soilMoisture`,
`nitrogen` and pest pressure of the very same post-state. -/
theorem c1_cropHealth_recomputed (s : FarmState) (a : Action) (r : Rand)
    (h : s.day ≤ s.rainPattern.length) :
    (handleAction a r s).cropHealth =
      clamp (((handleAction a r s).soilMoisture * 0.4 +
        (handleAction a r s).nitrogen * 0.4 +
        (100 - (handleAction a r s).pests) * 0.2) / 1.5) 0 100 := by
  have hg : ¬ s.day > s.rainPattern.length := not_lt.mpr h
  unfold handleAction
  rw [if_neg hg]
  rfl

/-- Witness for `c1_cropHealth_recomputed` on a concrete state. -/
theorem c1_cropHealth_recomputed_witness :
    (handleAction Action.Wait r0 oneDayMedium).cropHealth =
      clamp (((handleAction Action.Wait r0 oneDayMedium).soilMoisture * 0.4 +
        (handleAction Action.Wait r0 oneDayMedium).nitrogen * 0.4 +
        (100 - (handleAction Action.Wait r0 oneDayMedium).pests) * 0.2) / 1.5) 0 100 :=
  c1_cropHealth_recomputed oneDayMedium Action.Wait r0 (by decide)

/-- C9. The engine never limits actions to one per day: on an in-progress
day `handleAction` is the full daily step, it leaves `day` unchanged and
appends the action to `actionsTakenToday`, and a second call on the same
day runs the full daily step again. -/
theorem c9_actions_not_limited (s : FarmState) (a b : Action) (ra rb : Rand)
    (h : s.day ≤ s.rainPattern.length) :
    handleAction a ra s = fullStep a ra s ∧
    (handleAction a ra s).day = s.day ∧
    (handleAction a ra s).actionsTakenToday = s.actionsTakenToday ++ [a] ∧
    handleAction b rb (handleAction a ra s) = fullStep b rb (fullStep a ra s) := by
  have hg : ¬ s.day > s.rainPattern.length := not_lt.mpr h
  have h1 : handleAction a ra s = fullStep a ra s := by
    unfold handleAction
    rw [if_neg hg]
  have hday : (fullStep a ra s).day = s.day := rfl
  have hrain : (fullStep a ra s).rainPattern = s.rainPattern := rfl
  have hg2 : ¬ (fullStep a ra s).day > (fullStep a ra s).rainPattern.length := by
    rw [hday, hrain]
    exact hg
  refine ⟨h1, by rw [h1, hday], ?_, ?_⟩
  · rw [h1]
    rfl
  · rw [h1]
    unfold handleAction
    rw [if_neg hg2]

/-- Witness for `c9_actions_not_limited` on a concrete state. -/
theorem c9_actions_not_limited_witness :
    handleAction Action.Wait r0 oneDayMedium = fullStep Action.Wait r0 oneDayMedium ∧
    (handleAction Action.Wait r0 oneDayMedium).day = oneDayMedium.day ∧
    (handleAction Action.Wait r0 oneDayMedium).actionsTakenToday =
      oneDayMedium.actionsTakenToday ++ [Action.Wait] ∧
    handleAction Action.Scout r0 (handleAction Action.Wait r0 oneDayMedium) =
      fullStep Action.Scout r0 (fullStep Action.Wait r0 oneDayMedium) :=
  c9_actions_not_limited oneDayMedium Action.Wait Action.Scout r0 r0 (by decide)

/-- C10. On a non-final day `nextDay` only increments the day counter and
resets `actionsTakenToday`; every other field of the state is untouched and
no terminal summary is produced. -/
theorem c10_nextDay_frame (s : FarmState) (h : s.day < s.rainPattern.length) :
    nextDay s = ({ s with day := s.day + 1, actionsTakenToday := [] }, Option.none) := by
  have h1 : ¬ s.day > s.rainPattern.length := by omega
  have h2 : ¬ s.day + 1 > s.rainPattern.length := by omega
  simp [nextDay, h1, h2]

/-- Witness for `c10_nextDay_frame` on a concrete state. -/
theorem c10_nextDay_frame_witness :
    nextDay twoDayLow =
      ({ twoDayLow with day := twoDayLow.day + 1, actionsTakenToday := [] }, Option.none) :=
  c10_nextDay_frame twoDayLow (by decide)

/-- The start state of the spec's one-day Irrigate test scenario:
`{soilMoisture: 55, nitrogen: 40, pestPressure: 10, money: 10}` with a
one-day medium-rain series.  The scenario leaves `cropHealth` and
`marketPrice` open, so they are parameters. -/
def scenarioState (mp ch : ℚ) : FarmState :=
  { day := 1
    money := 10
    sustainability := 80
    pests := 10
    nitrogen := 40
    cropHealth := ch
    marketPrice := mp
    soilMoisture := 55
    rainPattern := [RainLevel.medium]
    actionsTakenToday := [] }

/-- Evaluation of the Irrigate step on the scenario state: the soil
moisture lands at 71 unclamped, and the step both pays the irrigation cost
and credits the mid-tier revenue, because the recomputed crop health always
falls in (40, 70] here. -/
theorem irrigate_medium_eval (mp ch drift : ℚ) (pr sc : ℕ)
    (h0 : 0 ≤ ch) (h1 : ch ≤ 100) (h2 : pr ≤ 5) :
    (handleAction Action.Irrigate ⟨sc, pr, drift⟩ (scenarioState mp ch)).soilMoisture = 71 ∧
    (handleAction Action.Irrigate ⟨sc, pr, drift⟩ (scenarioState mp ch)).money =
      10 - 3 + 2 * mp := by
  have hpr : (pr : ℚ) ≤ 5 := by exact_mod_cast h2
  have hpr0 : (0 : ℚ) ≤ (pr : ℚ) := Nat.cast_nonneg pr
  have hx0 : (0 : ℚ) ≤ (pr : ℚ) + (100 - ch) / 20 := by linarith
  have hx10 : (pr : ℚ) + (100 - ch) / 20 ≤ 10 := by linarith
  have key : handleAction Action.Irrigate ⟨sc, pr, drift⟩ (scenarioState mp ch) =
      fullStep Action.Irrigate ⟨sc, pr, drift⟩ (scenarioState mp ch) := by
    unfold handleAction
    rw [if_neg (show ¬ (scenarioState mp ch).day > (scenarioState mp ch).rainPattern.length by
      simp [scenarioState])]
  rw [key]
  have e1 : clamp (55 + 6 + 10 : ℚ) 0 100 = 71 := by
    rw [clamp_eq_self] <;> norm_num
  constructor
  · have hsm : (fullStep Action.Irrigate ⟨sc, pr, drift⟩ (scenarioState mp ch)).soilMoisture =
        clamp (55 + 6 + 10) 0 100 := rfl
    rw [hsm, e1]
  · have hmon : (fullStep Action.Irrigate ⟨sc, pr, drift⟩ (scenarioState mp ch)).money =
        (if clamp ((clamp (55 + 6 + 10) 0 100 * 0.4 + clamp 40 0 100 * 0.4 +
            (100 - clamp (10 + ((pr : ℚ) + (100 - ch) / 20)) 0 100) * 0.2) / 1.5) 0 100 > 70
          then 10 - 3 + 4 * mp
          else if clamp ((clamp (55 + 6 + 10) 0 100 * 0.4 + clamp 40 0 100 * 0.4 +
            (100 - clamp (10 + ((pr : ℚ) + (100 - ch) / 20)) 0 100) * 0.2) / 1.5) 0 100 > 40
          then 10 - 3 + 2 * mp
          else 10 - 3) := rfl
    rw [hmon, e1]
    have e2 : clamp (40 : ℚ) 0 100 = 40 := by
      rw [clamp_eq_self] <;> norm_num
    have e3 : clamp (10 + ((pr : ℚ) + (100 - ch) / 20)) 0 100 =
        10 + ((pr : ℚ) + (100 - ch) / 20) := by
      rw [clamp_eq_self] <;> linarith
    rw [e2, e3]
    have e4 : clamp ((71 * 0.4 + 40 * 0.4 +
        (100 - (10 + ((pr : ℚ) + (100 - ch) / 20))) * 0.2) / 1.5) 0 100 =
        (71 * 0.4 + 40 * 0.4 + (100 - (10 + ((pr : ℚ) + (100 - ch) / 20))) * 0.2) / 1.5 := by
      rw [clamp_eq_self] <;> (norm_num; linarith)
    rw [e4]
    rw [if_neg (by norm_num; linarith), if_pos (by norm_num; linarith)]

/-- C2 counterexample. In the spec's scenario (soilMoisture 55, medium
rain, Irrigate), soil moisture does become 71, but the final money is not
`10 - irrigationCost`: the same step credits revenue from the recomputed
crop health. -/
theorem c2_counterexample :
    (handleAction Action.Irrigate r0 (scenarioState 1 70)).soilMoisture = 71 ∧
    (handleAction Action.Irrigate r0 (scenarioState 1 70)).money ≠ 10 - 3 := by
  have h := irrigate_medium_eval 1 70 0 0 5 (by norm_num) (by norm_num) (by norm_num)
  have hr : r0 = (⟨5, 0, 0⟩ : Rand) := rfl
  rw [hr]
  refine ⟨h.1, ?_⟩
  rw [h.2]
  norm_num

/-- C2 amended. The rain-driven moisture delta is applied before the
action-specific delta and soil moisture is clamped exactly once per step;
in the scenario, soil moisture becomes 55 + 6 + 10 = 71 with no clamp
triggered, and money becomes `10 - irrigationCost + 2 * marketPrice`
because the step also credits the mid-tier revenue. -/
theorem c2_rain_then_action (s : FarmState) (r : Rand) (a : Action)
    (h : s.day ≤ s.rainPattern.length) :
    ((handleAction a r s).soilMoisture =
      clamp (s.soilMoisture + rainDelta (s.rainPattern.getD (s.day - 1) RainLevel.medium) +
        (if a = Action.Irrigate then 10 else 0)) 0 100) ∧
    (∀ (mp ch drift : ℚ) (pr sc : ℕ), 0 ≤ ch → ch ≤ 100 → pr ≤ 5 →
      (handleAction Action.Irrigate ⟨sc, pr, drift⟩ (scenarioState mp ch)).soilMoisture = 71 ∧
      (handleAction Action.Irrigate ⟨sc, pr, drift⟩ (scenarioState mp ch)).money =
        10 - 3 + 2 * mp) := by
  refine ⟨?_, fun mp ch drift pr sc h0 h1 h2 => irrigate_medium_eval mp ch drift pr sc h0 h1 h2⟩
  unfold handleAction
  rw [if_neg (not_lt.mpr h)]
  cases a
  · rw [if_pos rfl]
    exact rfl
  · rw [if_neg (by decide), add_zero]
    exact rfl
  · rw [if_neg (by decide), add_zero]
    exact rfl
  · rw [if_neg (by decide), add_zero]
    exact rfl

/-- Witness for `c2_rain_then_action` on a concrete state. -/
theorem c2_rain_then_action_witness :
    ((handleAction Action.Irrigate r0 (scenarioState 1 70)).soilMoisture =
      clamp ((scenarioState 1 70).soilMoisture +
        rainDelta ((scenarioState 1 70).rainPattern.getD ((scenarioState 1 70).day - 1)
          RainLevel.medium) +
        (if Action.Irrigate = Action.Irrigate then 10 else 0)) 0 100) ∧
    (∀ (mp ch drift : ℚ) (pr sc : ℕ), 0 ≤ ch → ch ≤ 100 → pr ≤ 5 →
      (handleAction Action.Irrigate ⟨sc, pr, drift⟩ (scenarioState mp ch)).soilMoisture = 71 ∧
      (handleAction Action.Irrigate ⟨sc, pr, drift⟩ (scenarioState mp ch)).money =
        10 - 3 + 2 * mp) :=
  c2_rain_then_action (scenarioState 1 70) r0 Action.Irrigate (by decide)

/-- Fertilizing under high rain costs exactly 3 sustainability, and the
step keeps `day` and `rainPattern` unchanged: `sustainability` is never
clamped anywhere in the step. -/
theorem fertilize_high_sust (r : Rand) (s : FarmState)
    (h : s.day ≤ s.rainPattern.length)
    (hrain : s.rainPattern.getD (s.day - 1) RainLevel.medium = RainLevel.high) :
    (handleAction Action.Fertilize r s).sustainability = s.sustainability - 3 ∧
    (handleAction Action.Fertilize r s).day = s.day ∧
    (handleAction Action.Fertilize r s).rainPattern = s.rainPattern := by
  have key : handleAction Action.Fertilize r s = fullStep Action.Fertilize r s := by
    unfold handleAction
    rw [if_neg (not_lt.mpr h)]
  rw [key]
  refine ⟨?_, rfl, rfl⟩
  have hs : (fullStep Action.Fertilize r s).sustainability =
      (if s.rainPattern.getD (s.day - 1) RainLevel.medium = RainLevel.high
        then s.sustainability - 3 else s.sustainability) := rfl
  rw [hs, if_pos hrain]

/-- Sustainability after `k` same-day Fertilize actions on a one-day
high-rain season: it drops by 3 each time, with no floor. -/
theorem fertilize_iter_sust (k : ℕ) :
    ((handleAction Action.Fertilize r0)^[k] (initState [RainLevel.high] 55)).sustainability =
      80 - 3 * k ∧
    ((handleAction Action.Fertilize r0)^[k] (initState [RainLevel.high] 55)).day = 1 ∧
    ((handleAction Action.Fertilize r0)^[k] (initState [RainLevel.high] 55)).rainPattern =
      [RainLevel.high] := by
  induction k with
  | zero =>
      refine ⟨?_, rfl, rfl⟩
      norm_num [initState]
  | succ n ih =>
      obtain ⟨ihs, ihd, ihr⟩ := ih
      rw [Function.iterate_succ_apply']
      have h : ((handleAction Action.Fertilize r0)^[n] (initState [RainLevel.high] 55)).day ≤
          ((handleAction Action.Fertilize r0)^[n] (initState [RainLevel.high] 55)).rainPattern.length := by
        rw [ihd, ihr]
        simp
      have hrain : ((handleAction Action.Fertilize r0)^[n]
            (initState [RainLevel.high] 55)).rainPattern.getD
          (((handleAction Action.Fertilize r0)^[n] (initState [RainLevel.high] 55)).day - 1)
          RainLevel.medium = RainLevel.high := by
        rw [ihd, ihr]
        rfl
      obtain ⟨e1, e2, e3⟩ := fertilize_high_sust r0 _ h hrain
      refine ⟨?_, by rw [e2, ihd], by rw [e3, ihr]⟩
      rw [e1, ihs]
      push_cast
      ring

/-- C3 counterexample. `sustainability` is declared clamped to [0,100],
but the engine never clamps it: 27 Fertilize actions on a single high-rain
day drive it to −1, a reachable state with a clamped field out of range. -/
theorem c3_counterexample :
    ((handleAction Action.Fertilize r0)^[27] (initState [RainLevel.high] 55)).sustainability < 0 := by
  rw [(fertilize_iter_sust 27).1]
  norm_num

/-- C3 amended. After any `handleAction` on an in-progress day,
`soilMoisture`, `nitrogen`, pest pressure and `cropHealth` lie in [0,100]
and `marketPrice` in [0.8,1.5]; `sustainability` however is never clamped
(see the counterexample), and `nextDay` leaves all these fields unchanged. -/
theorem c3_clamped_fields (s : FarmState) (a : Action) (r : Rand)
    (h : s.day ≤ s.rainPattern.length) :
    (0 ≤ (handleAction a r s).soilMoisture ∧ (handleAction a r s).soilMoisture ≤ 100) ∧
    (0 ≤ (handleAction a r s).nitrogen ∧ (handleAction a r s).nitrogen ≤ 100) ∧
    (0 ≤ (handleAction a r s).pests ∧ (handleAction a r s).pests ≤ 100) ∧
    (0 ≤ (handleAction a r s).cropHealth ∧ (handleAction a r s).cropHealth ≤ 100) ∧
    (0.8 ≤ (handleAction a r s).marketPrice ∧ (handleAction a r s).marketPrice ≤ 1.5) ∧
    ((nextDay s).1.soilMoisture = s.soilMoisture ∧
      (nextDay s).1.nitrogen = s.nitrogen ∧
      (nextDay s).1.pests = s.pests ∧
      (nextDay s).1.cropHealth = s.cropHealth ∧
      (nextDay s).1.sustainability = s.sustainability ∧
      (nextDay s).1.marketPrice = s.marketPrice) := by
  have key : handleAction a r s = fullStep a r s := by
    unfold handleAction
    rw [if_neg (not_lt.mpr h)]
  rw [key]
  refine ⟨⟨?_, ?_⟩, ⟨?_, ?_⟩, ⟨?_, ?_⟩, ⟨?_, ?_⟩, ⟨?_, ?_⟩, ?_⟩
  · exact le_clamp _ _ _ (by norm_num)
  · exact clamp_le _ _ _
  · exact le_clamp _ _ _ (by norm_num)
  · exact clamp_le _ _ _
  · exact le_clamp _ _ _ (by norm_num)
  · exact clamp_le _ _ _
  · exact le_clamp _ _ _ (by norm_num)
  · exact clamp_le _ _ _
  · exact le_clamp _ _ _ (by norm_num)
  · exact clamp_le _ _ _
  · simp only [nextDay]
    split_ifs <;> exact ⟨rfl, rfl, rfl, rfl, rfl, rfl⟩

/-- Witness for `c3_clamped_fields` on a concrete state. -/
theorem c3_clamped_fields_witness :
    (0 ≤ (handleAction Action.Scout r0 oneDayMedium).soilMoisture ∧
      (handleAction Action.Scout r0 oneDayMedium).soilMoisture ≤ 100) ∧
    (0 ≤ (handleAction Action.Scout r0 oneDayMedium).nitrogen ∧
      (handleAction Action.Scout r0 oneDayMedium).nitrogen ≤ 100) ∧
    (0 ≤ (handleAction Action.Scout r0 oneDayMedium).pests ∧
      (handleAction Action.Scout r0 oneDayMedium).pests ≤ 100) ∧
    (0 ≤ (handleAction Action.Scout r0 oneDayMedium).cropHealth ∧
      (handleAction Action.Scout r0 oneDayMedium).cropHealth ≤ 100) ∧
    (0.8 ≤ (handleAction Action.Scout r0 oneDayMedium).marketPrice ∧
      (handleAction Action.Scout r0 oneDayMedium).marketPrice ≤ 1.5) ∧
    ((nextDay oneDayMedium).1.soilMoisture = oneDayMedium.soilMoisture ∧
      (nextDay oneDayMedium).1.nitrogen = oneDayMedium.nitrogen ∧
      (nextDay oneDayMedium).1.pests = oneDayMedium.pests ∧
      (nextDay oneDayMedium).1.cropHealth = oneDayMedium.cropHealth ∧
      (nextDay oneDayMedium).1.sustainability = oneDayMedium.sustainability ∧
      (nextDay oneDayMedium).1.marketPrice = oneDayMedium.marketPrice) :=
  c3_clamped_fields oneDayMedium Action.Scout r0 (by decide)

/-- One in-progress `stepDay` advances the day and keeps the other
summary-relevant fields. -/
theorem stepDay_eq (t : FarmState) (hguard : ¬ t.day > t.rainPattern.length) :
    (stepDay t).day = t.day + 1 ∧
    (stepDay t).money = t.money ∧
    (stepDay t).sustainability = t.sustainability ∧
    (stepDay t).cropHealth = t.cropHealth ∧
    (stepDay t).rainPattern = t.rainPattern := by
  unfold stepDay nextDay
  rw [if_neg hguard]
  dsimp only
  split_ifs <;> exact ⟨rfl, rfl, rfl, rfl, rfl⟩

/-- The final `nextDay` of a season emits the terminal summary built from
the pre-step money, sustainability and crop health. -/
theorem nextDay_final (t : FarmState) (h1 : ¬ t.day > t.rainPattern.length)
    (h2 : t.day + 1 > t.rainPattern.length) :
    (nextDay t).2 = Option.some ⟨t.money, t.sustainability, t.cropHealth⟩ := by
  unfold nextDay
  rw [if_neg h1]
  dsimp only
  rw [if_pos h2]

/-- Iterating `stepDay` while the season is in progress advances only the
day counter; money, sustainability, crop health and the rain pattern are
untouched. -/
theorem stepDay_iterate (s : FarmState) (k : ℕ) :
    s.day + k ≤ s.rainPattern.length + 1 →
    (stepDay^[k] s).day = s.day + k ∧
    (stepDay^[k] s).money = s.money ∧
    (stepDay^[k] s).sustainability = s.sustainability ∧
    (stepDay^[k] s).cropHealth = s.cropHealth ∧
    (stepDay^[k] s).rainPattern = s.rainPattern := by
  induction k with
  | zero => exact fun _ => ⟨rfl, rfl, rfl, rfl, rfl⟩
  | succ n ih =>
      intro hk
      obtain ⟨hd, hm, hs, hc, hr⟩ := ih (by omega)
      rw [Function.iterate_succ_apply']
      have hguard : ¬ (stepDay^[n] s).day > (stepDay^[n] s).rainPattern.length := by
        rw [hd, hr]
        omega
      have e5 := stepDay_eq (stepDay^[n] s) hguard
      refine ⟨?_, by rw [e5.2.1, hm], by rw [e5.2.2.1, hs], by rw [e5.2.2.2.1, hc],
        by rw [e5.2.2.2.2, hr]⟩
      rw [e5.1, hd]
      omega

/-- C7. From day 1, `nextDay` applied exactly `seriesLength` times moves
the engine past the series (the Complete state), the final application
returns the terminal summary (final profit, sustainability and crop
health), and every further `handleAction` is the identity on the state. -/
theorem c7_season_complete (s : FarmState) (m : ℕ) (hd : s.day = 1)
    (hl : s.rainPattern.length = m + 1) :
    (stepDay^[m + 1] s).rainPattern.length < (stepDay^[m + 1] s).day ∧
    (nextDay (stepDay^[m] s)).2 = Option.some
      ⟨(stepDay^[m + 1] s).money, (stepDay^[m + 1] s).sustainability,
        (stepDay^[m + 1] s).cropHealth⟩ ∧
    (∀ (a : Action) (r : Rand),
      handleAction a r (stepDay^[m + 1] s) = stepDay^[m + 1] s) := by
  obtain ⟨hd1, hm1, hs1, hc1, hr1⟩ := stepDay_iterate s (m + 1) (by omega)
  obtain ⟨hd0, hm0, hs0, hc0, hr0⟩ := stepDay_iterate s m (by omega)
  have hcomplete : (stepDay^[m + 1] s).rainPattern.length < (stepDay^[m + 1] s).day := by
    rw [hd1, hr1, hl, hd]
    omega
  refine ⟨hcomplete, ?_, ?_⟩
  · have hguard : ¬ (stepDay^[m] s).day > (stepDay^[m] s).rainPattern.length := by
      rw [hd0, hr0, hl, hd]
      omega
    have hguard2 : (stepDay^[m] s).day + 1 > (stepDay^[m] s).rainPattern.length := by
      rw [hd0, hr0, hl, hd]
      omega
    have hsum := nextDay_final (stepDay^[m] s) hguard hguard2
    rw [hsum, hm1, hm0, hs1, hs0, hc1, hc0]
  · intro a r
    unfold handleAction
    rw [if_pos hcomplete]

/-- Witness for `c7_season_complete` on a concrete one-day season. -/
theorem c7_season_complete_witness :
    (stepDay^[0 + 1] oneDayMedium).rainPattern.length < (stepDay^[0 + 1] oneDayMedium).day ∧
    (nextDay (stepDay^[0] oneDayMedium)).2 = Option.some
      ⟨(stepDay^[0 + 1] oneDayMedium).money, (stepDay^[0 + 1] oneDayMedium).sustainability,
        (stepDay^[0 + 1] oneDayMedium).cropHealth⟩ ∧
    (∀ (a : Action) (r : Rand),
      handleAction a r (stepDay^[0 + 1] oneDayMedium) = stepDay^[0 + 1] oneDayMedium) :=
  c7_season_complete oneDayMedium 0 rfl rfl

/-! ### Claims about the weather preprocessor -/

/-- The display rounding `+x.toFixed(2)` keeps a value inside the field
capacity band. -/
theorem round2_bounds (x : ℚ) (h0 : 0 ≤ x) (h1 : x ≤ fc_mm) :
    0 ≤ round2 x ∧ round2 x ≤ fc_mm := by
  have hfc : fc_mm = (150 : ℚ) := rfl
  rw [hfc] at h1 ⊢
  have hround : round (100 * x) = ⌊100 * x + 1 / 2⌋ := round_eq _
  have hlo : (0 : ℤ) ≤ round (100 * x) := by
    rw [hround]
    exact Int.le_floor.mpr (by push_cast; linarith)
  have hhi : round (100 * x) ≤ 15000 := by
    rw [hround]
    have h2 : (100 * x + 1 / 2 : ℚ) < ((15001 : ℤ) : ℚ) := by push_cast; linarith
    have h3 := Int.floor_lt.mpr h2
    omega
  unfold round2
  constructor
  · apply div_nonneg _ (by norm_num)
    exact_mod_cast hlo
  · rw [div_le_iff₀ (by norm_num : (0:ℚ) < 100)]
    have h4 : ((round (100 * x) : ℤ) : ℚ) ≤ 15000 := by exact_mod_cast hhi
    linarith

/-- One day of the water balance always lands in `[0, fc_mm]`: the two
trailing `if`s clamp unconditionally. -/
theorem soilStep_bounds (kc aw pr eto : ℚ) :
    0 ≤ soilStep kc aw pr eto ∧ soilStep kc aw pr eto ≤ fc_mm := by
  unfold soilStep fc_mm
  dsimp only
  split_ifs <;> constructor <;> linarith

/-- Every element of the emitted soil series is in `[0, fc_mm]`, from any
starting balance. -/
theorem soilSeries_bounds (kc aw : ℚ) (days : List (ℚ × ℚ)) (x : ℚ)
    (hx : x ∈ soilSeries kc aw days) : 0 ≤ x ∧ x ≤ fc_mm := by
  induction days generalizing aw with
  | nil => simp [soilSeries] at hx
  | cons d rest ih =>
      obtain ⟨pr, eto⟩ := d
      simp only [soilSeries, List.mem_cons] at hx
      rcases hx with rfl | hx
      · have hb := soilStep_bounds kc aw pr eto
        exact round2_bounds _ hb.1 hb.2
      · exact ih _ hx

/-- C4. The water balance starts at `fieldCapacity * 0.5`, each day adds
precipitation, subtracts `min(availableWater, ETo * cropCoefficient)` with
the coefficient looked up by crop kind (default for unknown kinds), and
clamps to `[0, fieldCapacity]`; consequently every emitted soil-moisture
value lies in `[0, fieldCapacity]` for every precipitation/ETo sequence. -/
theorem c4_soil_in_capacity (crop : String) (days : List (ℚ × ℚ)) (x : ℚ)
    (hx : x ∈ soilSeries (kc_map crop) (fc_mm * 0.5) days) :
    0 ≤ x ∧ x ≤ fc_mm :=
  soilSeries_bounds (kc_map crop) (fc_mm * 0.5) days x hx

/-- Witness for `c4_soil_in_capacity` on a concrete one-day series. -/
theorem c4_soil_in_capacity_witness : 0 ≤ (75 : ℚ) ∧ (75 : ℚ) ≤ fc_mm :=
  c4_soil_in_capacity "maize" [(0, 0)] 75 (by
    have h : soilSeries (kc_map "maize") (fc_mm * 0.5) [(0, 0)] = [75] := by
      unfold soilSeries soilStep round2 kc_map fc_mm
      norm_num [min_def]
      rfl
    rw [h]
    simp)

/-- C8. In the upstream-response parsing, a day with an absent temperature
key contributes ETo = 0 and an absent precipitation key defaults to 0, but
the documented −999 missing-value sentinel is NOT filtered: a sentinel
temperature is fed to the Hargreaves formula as a real temperature and
yields a nonzero (here negative) ETo instead of 0. -/
theorem c8_sentinel_not_no_data :
    etoOfDay (Option.some (-999)) (Option.some 25) 1 ≠ 0 ∧
    (∀ (t : Option ℝ) (Ra : ℝ),
      etoOfDay Option.none t Ra = 0 ∧ etoOfDay t Option.none Ra = 0) ∧
    precipOfDay Option.none = 0 := by
  refine ⟨?_, ?_, rfl⟩
  · have hmax : max (0:ℝ) (25 - (-999)) = 1024 := by norm_num
    have hsqrt : Real.sqrt (max (0:ℝ) (25 - (-999))) = 32 := by
      rw [hmax, show (1024:ℝ) = 32 ^ 2 by norm_num,
        Real.sqrt_sq (by norm_num : (0:ℝ) ≤ 32)]
    show hargreavesETo (-999) 25 1 ≠ 0
    unfold hargreavesETo
    rw [hsqrt]
    norm_num
  · intro t Ra
    constructor
    · cases t <;> rfl
    · cases t <;> rfl

end FarmNav
